import Mathlib

/-!
Shallow embedding of the Plasma-Rig single-axis stepper controller
(src/EXP_CODE.ino) and verification of its specification claims.

Modelling conventions:
* Machine `double` arithmetic is modelled over `ℚ` (the spec treats the
  step-grid arithmetic as exact, and every property below is about the
  exact structure of the computation, not about float rounding).
* The live contact line is an environment function `contact : ℕ → Bool`,
  giving the level (`true` = pin reads LOW / asserted) sampled when `k`
  pulses of the current sequence have been issued.
* The latched interrupt flag of a calibration run is an environment
  function `flag : ℕ → Bool` (value when `k` pulses have been issued);
  its busy-wait loop is given explicit fuel, with termination under the
  assumption that the flag is eventually set.
* Serial output is modelled only where a claim mentions it (the
  `POSITION:` report lines of MANUAL:STOP and REST).
-/

namespace PlasmaRig

/-- `const double MM_PER_PULSE = 0.00005080;` (mm advanced per pulse). -/
def MM_PER_PULSE : ℚ := 508 / 10000000

/-- `const int STEPS_PER_COMMAND = 20;` -/
def STEPS_PER_COMMAND : ℕ := 20

/-- Arduino's `round` macro: `(x)>=0 ? (long)((x)+0.5) : (long)((x)-0.5)`,
i.e. round half away from zero (the cast truncates toward zero). -/
def ardRound (x : ℚ) : ℤ := if 0 ≤ x then ⌊x + 1/2⌋ else ⌈x - 1/2⌉

/-- The controller's global mutable state: `currentPosition`,
`isCalibrated`, `manualControlActive`, the latched `contactDetected`
flag, and the DIR / ENA output pins (`dirLow` = DIR_PIN is LOW, i.e.
motion toward the hard-stop; `enaDisabled` = ENA_PIN is HIGH, i.e.
driver de-energized). -/
structure AxisState where
  currentPosition : ℚ
  isCalibrated : Bool
  manualControlActive : Bool
  contactDetected : Bool
  dirLow : Bool
  enaDisabled : Bool
  deriving DecidableEq

/-- Boot state: `currentPosition = -999` (sentinel for "unknown"), all
flags false, output pins LOW after `pinMode(..., OUTPUT)`. -/
def initialState : AxisState :=
  { currentPosition := -999, isCalibrated := false, manualControlActive := false,
    contactDetected := false, dirLow := true, enaDisabled := false }

/-- Result of one `moveToTarget` invocation: final state, number of
pulses actually issued, whether the mid-move contact check aborted the
loop, and whether the NOT_CALIBRATED error path was taken. -/
structure MoveResult where
  state : AxisState
  pulses : ℕ
  contactAbort : Bool
  notCalibrated : Bool
  deriving DecidableEq

/-- `long targetSteps = round(mm / MM_PER_PULSE);`
`float snappedTarget = targetSteps * MM_PER_PULSE;`
`long stepsToMove = round((snappedTarget - currentPosition) / MM_PER_PULSE);` -/
def stepsToMove (s : AxisState) (mm : ℚ) : ℤ :=
  let targetSteps : ℤ := ardRound (mm / MM_PER_PULSE)
  let snappedTarget : ℚ := targetSteps * MM_PER_PULSE
  ardRound ((snappedTarget - s.currentPosition) / MM_PER_PULSE)

/-- `if (stepsToMove > 0) digitalWrite(DIR_PIN, HIGH); else digitalWrite(DIR_PIN, LOW);` -/
def dirLowFor (s : AxisState) (mm : ℚ) : Bool :=
  if 0 < stepsToMove s mm then false else true

/-- The `for (long i = 0; i < absStepsToMove; i++)` loop of
`moveToTarget`: each iteration first calls `stepMotor()` (one pulse),
then writes `currentPosition = startPosition ± i * MM_PER_PULSE`
(note: `i`, not `i + 1`), then checks
`digitalRead(contactPin) == LOW && digitalRead(DIR_PIN) == LOW` and
breaks on contact while moving toward the hard-stop.
Arguments: remaining iterations, iteration index `i` (= pulses issued
so far), current `currentPosition`. Returns (final `currentPosition`,
pulses issued, aborted-by-contact). -/
def moveLoop (contact : ℕ → Bool) (dLow : Bool) (startPosition : ℚ) :
    ℕ → ℕ → ℚ → ℚ × ℕ × Bool
  | 0, i, pos => (pos, i, false)
  | rem + 1, i, _ =>
    let pos := if dLow then startPosition - i * MM_PER_PULSE
               else startPosition + i * MM_PER_PULSE
    if contact (i + 1) && dLow then (pos, i + 1, true)
    else moveLoop contact dLow startPosition rem (i + 1) pos

/-- `void moveToTarget(float mm)`: NOT_CALIBRATED gate, step planning,
direction selection, driver enable, then the per-step loop. The driver
is left enabled at the end (the code never writes ENA_PIN after the
loop). -/
def moveToTarget (contact : ℕ → Bool) (s : AxisState) (mm : ℚ) : MoveResult :=
  if s.isCalibrated = false then
    ⟨s, 0, false, true⟩
  else
    let r := moveLoop contact (dirLowFor s mm) s.currentPosition
               (stepsToMove s mm).natAbs 0 s.currentPosition
    ⟨{ s with currentPosition := r.1, dirLow := dirLowFor s mm, enaDisabled := false },
      r.2.1, r.2.2, false⟩

/-- Result of one manual-jog invocation. `warned` records whether a
WARNING line (entry or mid-batch contact) was printed. -/
structure JogResult where
  state : AxisState
  pulses : ℕ
  warned : Bool
  notCalibrated : Bool
  deriving DecidableEq

/-- The `for (int i = 0; i < STEPS_PER_COMMAND; i++)` loop of
`manualStepCCW`: each iteration first checks the live pin and breaks
with a warning if asserted, otherwise pulses and does
`currentPosition -= MM_PER_PULSE`. Arguments: remaining iterations,
pulses issued so far `k`, current position. Returns (final position,
pulses issued, warned). -/
def ccwLoop (contact : ℕ → Bool) : ℕ → ℕ → ℚ → ℚ × ℕ × Bool
  | 0, k, pos => (pos, k, false)
  | rem + 1, k, pos =>
    if contact k then (pos, k, true)
    else ccwLoop contact rem (k + 1) (pos - MM_PER_PULSE)

/-- `void manualStepCCW()`: NOT_CALIBRATED gate, DIR LOW, ENA LOW,
clear `contactDetected`, entry live-pin check (warn and return if
already in contact), then the batch loop. -/
def manualStepCCW (contact : ℕ → Bool) (s : AxisState) : JogResult :=
  if s.isCalibrated = false then
    ⟨s, 0, false, true⟩
  else
    let s1 := { s with dirLow := true, enaDisabled := false, contactDetected := false }
    if contact 0 then
      ⟨{ s1 with contactDetected := true }, 0, true, false⟩
    else
      let r := ccwLoop contact STEPS_PER_COMMAND 0 s1.currentPosition
      ⟨{ s1 with currentPosition := r.1, contactDetected := r.2.2 }, r.2.1, r.2.2, false⟩

/-- The unconditional batch loop of `manualStepCW`: `stepMotor();
currentPosition += MM_PER_PULSE;` repeated. -/
def cwLoop : ℕ → ℚ → ℚ
  | 0, pos => pos
  | rem + 1, pos => cwLoop rem (pos + MM_PER_PULSE)

/-- `void manualStepCW()`: NOT_CALIBRATED gate, DIR HIGH, ENA LOW, then
a fixed batch of `STEPS_PER_COMMAND` pulses with no contact checks. -/
def manualStepCW (s : AxisState) : JogResult :=
  if s.isCalibrated = false then
    ⟨s, 0, false, true⟩
  else
    ⟨{ s with dirLow := false, enaDisabled := false, currentPosition := cwLoop STEPS_PER_COMMAND s.currentPosition },
      STEPS_PER_COMMAND, false, false⟩

/-- The `while (!contactDetected) stepMotor();` loop of
`runCalibration`: checks the latched flag before each pulse; `flag k`
is the flag value when `k` pulses have been issued. Explicit fuel;
returns the number of pulses issued, or `none` if the flag was not set
within the fuel bound. -/
def calLoop (flag : ℕ → Bool) : ℕ → ℕ → Option ℕ
  | _, 0 => none
  | k, fuel + 1 => if flag k then some k else calLoop flag (k + 1) fuel

/-- `void runCalibration()`: DIR LOW, ENA LOW, clear `contactDetected`;
if the live pin already reads LOW, set the flag and skip the loop;
otherwise pulse until the (interrupt-set) flag becomes true. Either
way: `currentPosition = 0`, `isCalibrated = true`, ENA HIGH. Returns
the new state and the pulses issued, or `none` if the flag is never
set within `fuel`. -/
def runCalibration (liveLow : Bool) (flag : ℕ → Bool) (fuel : ℕ) (s : AxisState) :
    Option (AxisState × ℕ) :=
  let s1 := { s with dirLow := true, enaDisabled := false, contactDetected := false }
  if liveLow then
    some ({ s1 with contactDetected := true, currentPosition := 0, isCalibrated := true, enaDisabled := true }, 0)
  else
    match calLoop flag 0 fuel with
    | none => none
    | some k =>
      some ({ s1 with contactDetected := true, currentPosition := 0, isCalibrated := true, enaDisabled := true }, k)

/-- Left-pad the fractional digits to width 6 with zeros. -/
def pad6 (n : ℕ) : String :=
  let t := toString n
  String.mk (List.replicate (6 - t.length) '0') ++ t

/-- Model of `Serial.println(value, 6)` for a double: optional minus
sign, integer part, and exactly six fractional digits (Arduino's
`printFloat` adds a rounding term of `0.5e-6` to the magnitude and then
extracts digits by truncation). -/
def fmt6 (q : ℚ) : String :=
  let a : ℚ := if q < 0 then -q else q
  let r : ℚ := a + 1 / 2000000
  let ip : ℕ := (⌊r⌋).toNat
  let fr : ℕ := (⌊(r - (ip : ℚ)) * 1000000⌋).toNat
  (if q < 0 then "-" else "") ++ toString ip ++ "." ++ pad6 fr

/-- `void manualStopMotor()`: prints the POSITION report, no state
change. Returns the (unchanged) state and the report line. -/
def manualStopMotor (s : AxisState) : AxisState × String :=
  (s, "POSITION:" ++ fmt6 s.currentPosition)

/-- `void stopMotor()` (the REST handler): ENA HIGH (driver disabled)
and a POSITION report; touches nothing else. -/
def stopMotor (s : AxisState) : AxisState × String :=
  ({ s with enaDisabled := true }, "POSITION:" ++ fmt6 s.currentPosition)

/-- One parsed command, carrying the environment (sensor traces / fuel)
its handler consumes, mirroring the dispatch in `loop()`. -/
inductive Cmd where
  | calibrate (liveLow : Bool) (flag : ℕ → Bool) (fuel : ℕ)
  | target (contact : ℕ → Bool) (mm : ℚ)
  | manualReady
  | manualComplete
  | manualCW
  | manualCCW (contact : ℕ → Bool)
  | manualStop
  | rest

/-- The command dispatch of `loop()`. `MANUAL:CW` / `MANUAL:CCW` are
gated on `manualControlActive` (otherwise they fall through to the
unknown-command branch, which changes no state). `none` models a
calibration whose busy-wait loop never returns. -/
def dispatch (s : AxisState) : Cmd → Option AxisState
  | .calibrate liveLow flag fuel => (runCalibration liveLow flag fuel s).map Prod.fst
  | .target contact mm => some (moveToTarget contact s mm).state
  | .manualReady => some { s with manualControlActive := true }
  | .manualComplete => some { s with manualControlActive := false }
  | .manualCW => some (if s.manualControlActive then (manualStepCW s).state else s)
  | .manualCCW contact =>
      some (if s.manualControlActive then (manualStepCCW contact s).state else s)
  | .manualStop => some (manualStopMotor s).1
  | .rest => some (stopMotor s).1

/-- Run a list of commands from a state (each command runs to
completion before the next is observed, as in the blocking design). -/
def runCmds (s : AxisState) : List Cmd → Option AxisState
  | [] => some s
  | c :: cs =>
    match dispatch s c with
    | none => none
    | some s2 => runCmds s2 cs

/-- Snapshot of the state right after a successful calibration from the
boot state: position 0, calibrated, flag latched, DIR LOW, ENA HIGH. -/
def calZero : AxisState :=
  { currentPosition := 0, isCalibrated := true, manualControlActive := false,
    contactDetected := true, dirLow := true, enaDisabled := true }

/-- A calibrated state two pulse-resolutions away from the hard-stop. -/
def nearStop2 : AxisState := { calZero with currentPosition := 2 * MM_PER_PULSE }

/-- A calibrated state five pulse-resolutions away from the hard-stop. -/
def nearStop5 : AxisState := { calZero with currentPosition := 5 * MM_PER_PULSE }

/-- A calibrated state near the hard-stop whose latched contact flag is
still set from an earlier edge. -/
def flaggedNearStop : AxisState :=
  { calZero with currentPosition := 2 * MM_PER_PULSE, contactDetected := true }

/-- If the live contact line never reads asserted, the move loop runs
all remaining iterations, issuing one pulse per iteration, and does not
abort. -/
theorem moveLoop_no_contact (contact : ℕ → Bool) (d : Bool) (startPosition : ℚ)
    (h : ∀ k, contact k = false) :
    ∀ rem i pos, (moveLoop contact d startPosition rem i pos).2 = (i + rem, false) := by
  intro rem
  induction rem with
  | zero => intro i pos; simp [moveLoop]
  | succ n ih =>
    intro i pos
    simp only [moveLoop, h, Bool.false_and, Bool.false_eq_true, if_false]
    rw [ih]
    simp [Nat.add_comm, Nat.add_assoc, Nat.add_left_comm]

/-- If the live line reads asserted at the post-pulse boundary `k` and
the move is toward the hard-stop, at most `k` pulses are issued: the
check at the end of each iteration aborts before any further pulse. -/
theorem moveLoop_pulses_le (contact : ℕ → Bool) (startPosition : ℚ) (k : ℕ)
    (hk : contact k = true) :
    ∀ rem i pos, i < k →
      (moveLoop contact true startPosition rem i pos).2.1 ≤ k := by
  intro rem
  induction rem with
  | zero => intro i pos h; simp [moveLoop]; omega
  | succ n ih =>
    intro i pos h
    cases hc : contact (i + 1) with
    | true => simp [moveLoop, hc]; omega
    | false =>
      have hne : i + 1 ≠ k := by
        intro he
        rw [he, hk] at hc
        simp at hc
      simp only [moveLoop, hc, Bool.false_and, Bool.false_eq_true, if_false]
      exact ih (i + 1) _ (by omega)

/-- The move loop aborts early only on a positive contact check: an
abort means the live line read asserted when exactly `pulses` pulses
had been issued, and the direction was toward the hard-stop. -/
theorem moveLoop_abort_contact (contact : ℕ → Bool) (d : Bool) (startPosition : ℚ) :
    ∀ rem i pos, (moveLoop contact d startPosition rem i pos).2.2 = true →
      contact ((moveLoop contact d startPosition rem i pos).2.1) = true ∧ d = true := by
  intro rem
  induction rem with
  | zero => intro i pos h; simp [moveLoop] at h
  | succ n ih =>
    intro i pos h
    by_cases hc : (contact (i + 1) && d) = true
    · simp only [moveLoop, hc, if_true] at h ⊢
      exact ⟨(Bool.and_eq_true _ _).mp hc |>.1, (Bool.and_eq_true _ _).mp hc |>.2⟩
    · simp only [moveLoop, hc, if_false] at h ⊢
      exact ih (i + 1) _ h

/-- Claim C1, counterexample: with the live contact line asserted at
every pulse boundary (including the boundary before the first pulse)
and the move direction toward the hard-stop, `moveToTarget` still
issues one pulse — the claim that the contact check happens before each
pulse, so that no pulse is issued once the line reads asserted at a
pulse boundary, is false: the check in the source runs after
`stepMotor()` in each iteration. -/
theorem moveToTarget_pulse_despite_entry_contact :
    (fun _ : ℕ => true) 0 = true ∧
    (moveToTarget (fun _ : ℕ => true) nearStop2 0).state.dirLow = true ∧
    (moveToTarget (fun _ : ℕ => true) nearStop2 0).pulses = 1 := by
  have h : (⌈(-(5/2) : ℚ)⌉ : ℤ) = -2 := by rw [Int.ceil_neg]; norm_num
  refine ⟨rfl, ?_, ?_⟩ <;>
    norm_num [moveToTarget, stepsToMove, ardRound, dirLowFor, moveLoop, nearStop2,
      calZero, MM_PER_PULSE, h]

/-- Claim C1 (amended): in `moveToTarget`, the live-contact check runs
after the pulse of each iteration; once the check observes the line
asserted with the direction toward the hard-stop it aborts before any
further pulse, so if the line reads asserted at a post-pulse boundary
`k` (`1 ≤ k`), at most `k` pulses are issued in total. (Only the
boundary before the first pulse is unprotected.) -/
theorem moveToTarget_no_pulse_after_detected_contact
    (contact : ℕ → Bool) (s : AxisState) (mm : ℚ) (k : ℕ)
    (hk : 1 ≤ k) (hc : contact k = true)
    (hdir : (moveToTarget contact s mm).state.dirLow = true) :
    (moveToTarget contact s mm).pulses ≤ k := by
  cases hcal : s.isCalibrated with
  | false => simp [moveToTarget, hcal]
  | true =>
    cases hd : dirLowFor s mm with
    | false =>
      exfalso
      rw [moveToTarget] at hdir
      simp [hcal, hd] at hdir
    | true =>
      rw [moveToTarget]
      simp only [hcal, hd, Bool.true_eq_false, if_false]
      exact moveLoop_pulses_le contact s.currentPosition k hc _ 0 _ (by omega)

/-- Witness for the amended C1 theorem: the line asserts from the
second pulse boundary on during a five-step move toward the hard-stop;
at most two pulses are issued. -/
theorem moveToTarget_no_pulse_after_detected_contact_witness :
    (fun k : ℕ => decide (2 ≤ k)) 2 = true ∧
    (moveToTarget (fun k : ℕ => decide (2 ≤ k)) nearStop5 0).pulses ≤ 2 :=
  ⟨by decide,
    moveToTarget_no_pulse_after_detected_contact (fun k : ℕ => decide (2 ≤ k))
      nearStop5 0 2 (by decide) (by decide) (by
        have h : (⌈(-(11/2) : ℚ)⌉ : ℤ) = -5 := by rw [Int.ceil_neg]; norm_num
        norm_num [moveToTarget, stepsToMove, ardRound, dirLowFor, moveLoop, nearStop5,
          calZero, MM_PER_PULSE, h])⟩

/-- Claim C2, failing input: from a calibrated state at position 0, a
move of exactly one step (`stepsToMove = 1`, target one pulse
resolution away) issues one pulse but leaves `currentPosition = 0`:
the loop writes `currentPosition = startPosition + i * MM_PER_PULSE`
after the `(i+1)`-th pulse, so the tracked position is one step behind
the pulses actually issued, contradicting the claim that the tracked
position equals the start position plus pulses-issued times the pulse
resolution. -/
theorem moveToTarget_position_lags_one_step :
    (moveToTarget (fun _ : ℕ => false) calZero MM_PER_PULSE).pulses = 1 ∧
    (moveToTarget (fun _ : ℕ => false) calZero MM_PER_PULSE).state.currentPosition = 0 ∧
    calZero.currentPosition + (1 : ℚ) * MM_PER_PULSE ≠ 0 := by
  refine ⟨?_, ?_, ?_⟩ <;>
    norm_num [moveToTarget, stepsToMove, ardRound, dirLowFor, moveLoop, calZero,
      MM_PER_PULSE]

/-- Claim C3, failing input: after `moveToTarget` to a target one pulse
resolution away completes normally (no contact), repeating the same
call issues one further pulse, not zero: the first move left
`currentPosition` one step short of the snapped target, so the second
plan computes `stepsToMove = 1`. Repeated moves to the same nominal
target therefore drift by one physical step per call. -/
theorem moveToTarget_repeat_issues_extra_pulse :
    (moveToTarget (fun _ : ℕ => false)
        (moveToTarget (fun _ : ℕ => false) calZero MM_PER_PULSE).state
        MM_PER_PULSE).pulses = 1 ∧
    (1 : ℕ) ≠ 0 := by
  refine ⟨?_, by decide⟩
  norm_num [moveToTarget, stepsToMove, ardRound, dirLowFor, moveLoop, calZero,
    MM_PER_PULSE]

/-- If the latched flag becomes true after some number of pulses within
the fuel bound, the calibration busy-wait loop returns. -/
theorem calLoop_some (flag : ℕ → Bool) :
    ∀ fuel i m, i ≤ m → m < i + fuel → flag m = true →
      ∃ k, calLoop flag i fuel = some k := by
  intro fuel
  induction fuel with
  | zero => intro i m h1 h2 _; omega
  | succ n ih =>
    intro i m h1 h2 hm
    cases hf : flag i with
    | true => exact ⟨i, by simp [calLoop, hf]⟩
    | false =>
      have hne : i ≠ m := by
        intro he
        rw [he, hm] at hf
        simp at hf
      obtain ⟨k, hk⟩ := ih (i + 1) m (by omega) (by omega) hm
      exact ⟨k, by simp [calLoop, hf, hk]⟩

/-- Claim C4: for every prior state, `runCalibration` (once its
busy-wait loop is released by the contact flag, which the hardware
guarantees) terminates with `currentPosition = 0` and
`isCalibrated = true`; if the sensor already reads in contact at
entry, it terminates immediately with zero pulses issued. -/
theorem runCalibration_zeroes_and_calibrates (s : AxisState) (liveLow : Bool)
    (flag : ℕ → Bool) (fuel n : ℕ) (hn : flag n = true) (hf : n < fuel) :
    ∃ s2 k, runCalibration liveLow flag fuel s = some (s2, k) ∧
      s2.currentPosition = 0 ∧ s2.isCalibrated = true ∧
      (liveLow = true → k = 0) := by
  cases liveLow with
  | true =>
    exact ⟨{ s with dirLow := true, enaDisabled := true, contactDetected := true, currentPosition := 0, isCalibrated := true },
      0, rfl, rfl, rfl, fun _ => rfl⟩
  | false =>
    obtain ⟨k, hk⟩ := calLoop_some flag fuel 0 n (Nat.zero_le n) (by omega) hn
    refine ⟨{ s with dirLow := true, enaDisabled := true, contactDetected := true, currentPosition := 0, isCalibrated := true },
      k, ?_, rfl, rfl, fun h => nomatch h⟩
    simp [runCalibration, hk]

/-- Witness for C4: sensor already in contact at entry of a fresh
calibration; it completes with position 0, calibrated, zero pulses. -/
theorem runCalibration_zeroes_and_calibrates_witness :
    ∃ s2 k, runCalibration true (fun _ : ℕ => true) 1 initialState = some (s2, k) ∧
      s2.currentPosition = 0 ∧ s2.isCalibrated = true ∧
      (true = true → k = 0) :=
  runCalibration_zeroes_and_calibrates initialState true (fun _ : ℕ => true) 1 0
    rfl (by decide)

/-- Claim C5: when `isCalibrated` is false, `moveToTarget`,
`manualStepCCW` and `manualStepCW` all take the NOT_CALIBRATED error
path before any motion: zero pulses are issued and the state
(position, calibration flag, jog gate, latched flag, direction and
enable pins) is returned unchanged. -/
theorem uncalibrated_gate_no_motion (s : AxisState) (contact : ℕ → Bool) (mm : ℚ)
    (h : s.isCalibrated = false) :
    moveToTarget contact s mm = ⟨s, 0, false, true⟩ ∧
    manualStepCCW contact s = ⟨s, 0, false, true⟩ ∧
    manualStepCW s = ⟨s, 0, false, true⟩ := by
  refine ⟨?_, ?_, ?_⟩ <;> simp [moveToTarget, manualStepCCW, manualStepCW, h]

/-- Witness for C5 at the boot state. -/
theorem uncalibrated_gate_no_motion_witness :
    initialState.isCalibrated = false ∧
    moveToTarget (fun _ : ℕ => false) initialState 3 = ⟨initialState, 0, false, true⟩ ∧
    manualStepCCW (fun _ : ℕ => false) initialState = ⟨initialState, 0, false, true⟩ ∧
    manualStepCW initialState = ⟨initialState, 0, false, true⟩ :=
  ⟨rfl,
    (uncalibrated_gate_no_motion initialState (fun _ : ℕ => false) 3 rfl).1,
    (uncalibrated_gate_no_motion initialState (fun _ : ℕ => false) 3 rfl).2.1,
    (uncalibrated_gate_no_motion initialState (fun _ : ℕ => false) 3 rfl).2.2⟩

/-- If the live line first reads asserted at pulse boundary `N`, the
CCW batch loop issues exactly `N` pulses, decrements the position by
exactly `N` pulse resolutions, and stops with the warning flag. -/
theorem ccwLoop_spec (contact : ℕ → Bool) (N : ℕ) (hN : contact N = true)
    (hb : ∀ j, j < N → contact j = false) :
    ∀ rem k pos, k ≤ N → N < k + rem →
      ccwLoop contact rem k pos = (pos - ((N - k : ℕ) : ℚ) * MM_PER_PULSE, N, true) := by
  intro rem
  induction rem with
  | zero => intro k pos h1 h2; omega
  | succ n ih =>
    intro k pos h1 h2
    rcases Nat.eq_or_lt_of_le h1 with he | hlt
    · subst he
      simp [ccwLoop, hN]
    · have hck : contact k = false := hb k hlt
      simp only [ccwLoop, hck, Bool.false_eq_true, if_false]
      rw [ih (k + 1) (pos - MM_PER_PULSE) hlt (by omega)]
      have hcast : ((N - k : ℕ) : ℚ) = ((N - (k + 1) : ℕ) : ℚ) + 1 := by
        have hh : N - k = (N - (k + 1)) + 1 := by omega
        rw [hh]
        push_cast
        ring
      rw [hcast]
      simp only [Prod.mk.injEq, eq_self_iff_true, and_true, true_and, and_self]
      ring

/-- Claim C6: in a calibrated CCW jog whose live line first asserts at
pulse boundary `N` with `N < STEPS_PER_COMMAND`, the sensor is
rechecked before each pulse, exactly `N` pulses are issued, the
position is decremented by exactly `N * MM_PER_PULSE`, and the batch
stops early with a warning, not an error. -/
theorem manualStepCCW_stops_on_contact (s : AxisState) (contact : ℕ → Bool) (N : ℕ)
    (hcal : s.isCalibrated = true) (hN : N < STEPS_PER_COMMAND)
    (hb : ∀ j, j < N → contact j = false) (hc : contact N = true) :
    (manualStepCCW contact s).pulses = N ∧
    (manualStepCCW contact s).state.currentPosition
      = s.currentPosition - (N : ℚ) * MM_PER_PULSE ∧
    (manualStepCCW contact s).warned = true ∧
    (manualStepCCW contact s).notCalibrated = false := by
  cases N with
  | zero => simp [manualStepCCW, hcal, hc]
  | succ m =>
    have h0 : contact 0 = false := hb 0 (Nat.succ_pos m)
    have hspec := ccwLoop_spec contact (m + 1) hc hb STEPS_PER_COMMAND 0
      s.currentPosition (Nat.zero_le _) (by omega)
    simp [manualStepCCW, hcal, h0, hspec]

/-- Witness for C6: contact appears at the third pulse boundary of a
CCW jog from the calibrated zero state; exactly 3 of the 20 batch
pulses are issued. -/
theorem manualStepCCW_stops_on_contact_witness :
    (fun k : ℕ => decide (3 ≤ k)) 3 = true ∧
    (manualStepCCW (fun k : ℕ => decide (3 ≤ k)) calZero).pulses = 3 ∧
    (manualStepCCW (fun k : ℕ => decide (3 ≤ k)) calZero).state.currentPosition
      = calZero.currentPosition - (3 : ℚ) * MM_PER_PULSE ∧
    (manualStepCCW (fun k : ℕ => decide (3 ≤ k)) calZero).warned = true :=
  have h := manualStepCCW_stops_on_contact calZero (fun k : ℕ => decide (3 ≤ k)) 3
    rfl (by decide) (fun j hj => by simp only [decide_eq_false_iff_not]; omega)
    (by decide)
  ⟨by decide, h.1, h.2.1, h.2.2.1⟩

/-- Claim C7, counterexample: a toward-hard-stop `moveToTarget` run in
which the latched flag is set at entry but the live line never reads
asserted. The claim says every move loop polls the latched flag each
pulse (so this move would abort) and read-and-clears it at entry and
per pulse (so it would end cleared). In fact the move runs its full
two steps with no abort, and the flag is still set afterwards:
`moveToTarget` never reads or clears `contactDetected`. -/
theorem moveToTarget_ignores_latched_flag :
    flaggedNearStop.contactDetected = true ∧
    (moveToTarget (fun _ : ℕ => false) flaggedNearStop 0).state.dirLow = true ∧
    (moveToTarget (fun _ : ℕ => false) flaggedNearStop 0).contactAbort = false ∧
    (moveToTarget (fun _ : ℕ => false) flaggedNearStop 0).pulses = 2 ∧
    (moveToTarget (fun _ : ℕ => false) flaggedNearStop 0).state.contactDetected = true := by
  have h : (⌈(-(5/2) : ℚ)⌉ : ℤ) = -2 := by rw [Int.ceil_neg]; norm_num
  refine ⟨rfl, ?_, ?_, ?_, ?_⟩ <;>
    norm_num [moveToTarget, stepsToMove, ardRound, dirLowFor, moveLoop, flaggedNearStop,
      calZero, MM_PER_PULSE, h]

/-- Claim C7 (amended): the move loops consult only the live sensor
level, once per pulse, to decide aborts; the latched flag is not read
by them — `moveToTarget`'s pulse count and abort outcome are the same
for either value of the latched flag and the flag is left unchanged,
and the CCW jog's pulse count is likewise independent of the incoming
flag (it clears the flag at sequence entry only). -/
theorem move_loops_use_live_level_only (contact : ℕ → Bool) (s : AxisState) (mm : ℚ)
    (b : Bool) :
    (moveToTarget contact { s with contactDetected := b } mm).pulses
      = (moveToTarget contact s mm).pulses ∧
    (moveToTarget contact { s with contactDetected := b } mm).contactAbort
      = (moveToTarget contact s mm).contactAbort ∧
    (moveToTarget contact s mm).state.contactDetected = s.contactDetected ∧
    (manualStepCCW contact { s with contactDetected := b }).pulses
      = (manualStepCCW contact s).pulses := by
  obtain ⟨pos, cal, act, cd, dl, en⟩ := s
  cases cal <;> exact ⟨rfl, rfl, rfl, rfl⟩

/-- Claim C8: REST (`stopMotor`) disables the driver and reports the
current position; it changes neither the tracked position nor the
calibration flag (nor the jog gate or latched flag). -/
theorem stopMotor_preserves_state (s : AxisState) :
    (stopMotor s).1.currentPosition = s.currentPosition ∧
    (stopMotor s).1.isCalibrated = s.isCalibrated ∧
    (stopMotor s).1.manualControlActive = s.manualControlActive ∧
    (stopMotor s).1.contactDetected = s.contactDetected ∧
    (stopMotor s).1.enaDisabled = true ∧
    (stopMotor s).2 = "POSITION:" ++ fmt6 s.currentPosition :=
  ⟨rfl, rfl, rfl, rfl, rfl, rfl⟩

/-- The 6-decimal report of the sentinel position value. -/
theorem fmt6_neg999 : fmt6 (-999) = "-999.000000" := by
  have h0 : ((999 : ℤ).toNat : ℕ) = 999 := rfl
  have h1 : (⌊(999 : ℚ) + 1 / 2000000⌋ : ℤ) = 999 := by norm_num
  have h2 : (⌊((1998000001 : ℚ) / 2000000 - (((999 : ℤ).toNat : ℕ) : ℚ)) * 1000000⌋ : ℤ) = 0 := by
    rw [h0]
    norm_num
  rw [fmt6]
  norm_num [h0, h1, h2]
  rfl

/-- The invariant maintained by every command: before a successful
calibration the tracked position still holds the boot sentinel. -/
def sentinelInv (s : AxisState) : Prop :=
  s.isCalibrated = false → s.currentPosition = -999

/-- Any state a completed `runCalibration` returns is calibrated and
zeroed. -/
theorem runCalibration_some_shape (liveLow : Bool) (flag : ℕ → Bool) (fuel : ℕ)
    (s a : AxisState) (k : ℕ) (h : runCalibration liveLow flag fuel s = some (a, k)) :
    a.isCalibrated = true ∧ a.currentPosition = 0 := by
  unfold runCalibration at h
  cases liveLow with
  | true =>
    simp at h
    obtain ⟨h1, -⟩ := h
    rw [← h1]
    exact ⟨rfl, rfl⟩
  | false =>
    cases hc : calLoop flag 0 fuel with
    | none => rw [hc] at h; simp at h
    | some k2 =>
      rw [hc] at h
      simp at h
      obtain ⟨h1, -⟩ := h
      rw [← h1]
      exact ⟨rfl, rfl⟩

/-- `moveToTarget` never changes the calibration flag. -/
theorem moveToTarget_keeps_cal (contact : ℕ → Bool) (s : AxisState) (mm : ℚ) :
    (moveToTarget contact s mm).state.isCalibrated = s.isCalibrated := by
  cases hcal : s.isCalibrated <;> simp [moveToTarget, hcal]

/-- Uncalibrated `moveToTarget` leaves the state untouched. -/
theorem moveToTarget_uncal_state (contact : ℕ → Bool) (s : AxisState) (mm : ℚ)
    (h : s.isCalibrated = false) : (moveToTarget contact s mm).state = s := by
  simp [moveToTarget, h]

/-- `manualStepCW` never changes the calibration flag. -/
theorem manualStepCW_keeps_cal (s : AxisState) :
    (manualStepCW s).state.isCalibrated = s.isCalibrated := by
  cases hcal : s.isCalibrated <;> simp [manualStepCW, hcal]

/-- Uncalibrated `manualStepCW` leaves the state untouched. -/
theorem manualStepCW_uncal_state (s : AxisState) (h : s.isCalibrated = false) :
    (manualStepCW s).state = s := by
  simp [manualStepCW, h]

/-- `manualStepCCW` never changes the calibration flag. -/
theorem manualStepCCW_keeps_cal (contact : ℕ → Bool) (s : AxisState) :
    (manualStepCCW contact s).state.isCalibrated = s.isCalibrated := by
  cases hcal : s.isCalibrated with
  | false => simp [manualStepCCW, hcal]
  | true => cases hc : contact 0 <;> simp [manualStepCCW, hcal, hc]

/-- Uncalibrated `manualStepCCW` leaves the state untouched. -/
theorem manualStepCCW_uncal_state (contact : ℕ → Bool) (s : AxisState)
    (h : s.isCalibrated = false) : (manualStepCCW contact s).state = s := by
  simp [manualStepCCW, h]

/-- Every single dispatched command preserves the sentinel invariant. -/
theorem dispatch_preserves_sentinel (s s2 : AxisState) (c : Cmd)
    (hd : dispatch s c = some s2) (hP : sentinelInv s) : sentinelInv s2 := by
  cases c with
  | calibrate liveLow flag fuel =>
    simp only [dispatch] at hd
    cases hr : runCalibration liveLow flag fuel s with
    | none => rw [hr] at hd; simp at hd
    | some p =>
      rw [hr] at hd
      simp at hd
      subst hd
      intro h2
      have hcal := (runCalibration_some_shape liveLow flag fuel s p.1 p.2 (by rw [hr])).1
      rw [hcal] at h2
      exact nomatch h2
  | target contact mm =>
    simp only [dispatch, Option.some.injEq] at hd
    subst hd
    intro h2
    rw [moveToTarget_keeps_cal contact s mm] at h2
    rw [moveToTarget_uncal_state contact s mm h2]
    exact hP h2
  | manualReady =>
    simp only [dispatch, Option.some.injEq] at hd
    subst hd
    intro h2
    exact hP h2
  | manualComplete =>
    simp only [dispatch, Option.some.injEq] at hd
    subst hd
    intro h2
    exact hP h2
  | manualCW =>
    simp only [dispatch, Option.some.injEq] at hd
    subst hd
    cases hact : s.manualControlActive with
    | false =>
      simp only [hact, Bool.false_eq_true, if_false]
      exact hP
    | true =>
      simp only [hact, if_true]
      intro h2
      rw [manualStepCW_keeps_cal s] at h2
      rw [manualStepCW_uncal_state s h2]
      exact hP h2
  | manualCCW contact =>
    simp only [dispatch, Option.some.injEq] at hd
    subst hd
    cases hact : s.manualControlActive with
    | false =>
      simp only [hact, Bool.false_eq_true, if_false]
      exact hP
    | true =>
      simp only [hact, if_true]
      intro h2
      rw [manualStepCCW_keeps_cal contact s] at h2
      rw [manualStepCCW_uncal_state contact s h2]
      exact hP h2
  | manualStop =>
    simp only [dispatch, Option.some.injEq] at hd
    subst hd
    intro h2
    exact hP h2
  | rest =>
    simp only [dispatch, Option.some.injEq] at hd
    subst hd
    intro h2
    exact hP h2

/-- Command traces preserve the sentinel invariant. -/
theorem runCmds_preserves_sentinel :
    ∀ (cs : List Cmd) (s s2 : AxisState), runCmds s cs = some s2 →
      sentinelInv s → sentinelInv s2 := by
  intro cs
  induction cs with
  | nil =>
    intro s s2 h hP
    simp only [runCmds, Option.some.injEq] at h
    subst h
    exact hP
  | cons c cs ih =>
    intro s s2 h hP
    rw [runCmds] at h
    cases hd : dispatch s c with
    | none => rw [hd] at h; simp at h
    | some s1 =>
      rw [hd] at h
      exact ih s1 s2 h (dispatch_preserves_sentinel s s1 c hd hP)

/-- Claim C9: in every state reachable from boot before a successful
calibration, the unknown position is the sentinel `-999`, and the two
position-reporting commands with no calibration precondition
(MANUAL:STOP and REST) report the line `POSITION:-999.000000` rather
than an unknown marker or an error. -/
theorem uncalibrated_reports_sentinel (cs : List Cmd) (s : AxisState)
    (h : runCmds initialState cs = some s) (hcal : s.isCalibrated = false) :
    s.currentPosition = -999 ∧
    (manualStopMotor s).2 = "POSITION:-999.000000" ∧
    (stopMotor s).2 = "POSITION:-999.000000" := by
  have hpos : s.currentPosition = -999 :=
    runCmds_preserves_sentinel cs initialState s h (fun _ => rfl) hcal
  refine ⟨hpos, ?_, ?_⟩ <;>
    simp [manualStopMotor, stopMotor, hpos, fmt6_neg999]

/-- The state reached from boot by the trace MANUAL:READY; REST. -/
def afterReadyRest : AxisState :=
  { currentPosition := -999, isCalibrated := false, manualControlActive := true,
    contactDetected := false, dirLow := true, enaDisabled := true }

/-- Witness for C9: the trace MANUAL:READY; REST from boot. -/
theorem uncalibrated_reports_sentinel_witness :
    afterReadyRest.currentPosition = -999 ∧
    (manualStopMotor afterReadyRest).2 = "POSITION:-999.000000" ∧
    (stopMotor afterReadyRest).2 = "POSITION:-999.000000" :=
  uncalibrated_reports_sentinel [Cmd.manualReady, Cmd.rest] afterReadyRest rfl rfl

/-- Claim C10: `moveToTarget` performs no range validation: in any
calibrated state, a target at or below the current position (any
negative target included) is planned with the direction pin toward the
hard-stop and executed without a NOT_CALIBRATED error; if the live
line never asserts, the full computed step count is pulsed, and the
only early exit is a positive per-iteration contact check. -/
theorem moveToTarget_no_range_validation (s : AxisState) (mm : ℚ) (contact : ℕ → Bool)
    (hcal : s.isCalibrated = true) (hneg : stepsToMove s mm ≤ 0) :
    (moveToTarget contact s mm).notCalibrated = false ∧
    (moveToTarget contact s mm).state.dirLow = true ∧
    ((∀ k, contact k = false) →
      (moveToTarget contact s mm).pulses = (stepsToMove s mm).natAbs ∧
      (moveToTarget contact s mm).contactAbort = false) ∧
    ((moveToTarget contact s mm).contactAbort = true →
      contact ((moveToTarget contact s mm).pulses) = true) := by
  have hd : dirLowFor s mm = true := by
    unfold dirLowFor
    rw [if_neg (by omega)]
  refine ⟨?_, ?_, ?_, ?_⟩
  · simp [moveToTarget, hcal]
  · simp [moveToTarget, hcal, hd]
  · intro hnc
    have h := moveLoop_no_contact contact (dirLowFor s mm) s.currentPosition hnc
      (stepsToMove s mm).natAbs 0 s.currentPosition
    constructor <;> simp [moveToTarget, hcal, h]
  · intro hab
    simp only [moveToTarget, hcal, Bool.true_eq_false, if_false] at hab ⊢
    exact (moveLoop_abort_contact contact (dirLowFor s mm) s.currentPosition
      (stepsToMove s mm).natAbs 0 s.currentPosition hab).1

/-- Witness for C10: calibrated at the hard-stop zero, commanded to the
negative target `-MM_PER_PULSE`; the move is planned toward the
hard-stop and executes its one computed step with no validation. -/
theorem moveToTarget_no_range_validation_witness :
    stepsToMove calZero (-MM_PER_PULSE) ≤ 0 ∧
    (moveToTarget (fun _ : ℕ => false) calZero (-MM_PER_PULSE)).notCalibrated = false ∧
    (moveToTarget (fun _ : ℕ => false) calZero (-MM_PER_PULSE)).state.dirLow = true ∧
    (moveToTarget (fun _ : ℕ => false) calZero (-MM_PER_PULSE)).pulses
      = (stepsToMove calZero (-MM_PER_PULSE)).natAbs := by
  have hneg : stepsToMove calZero (-MM_PER_PULSE) ≤ 0 := by
    have h : (⌈(-(3/2) : ℚ)⌉ : ℤ) = -1 := by rw [Int.ceil_neg]; norm_num
    norm_num [stepsToMove, ardRound, calZero, MM_PER_PULSE, h]
  have hmain := moveToTarget_no_range_validation calZero (-MM_PER_PULSE)
    (fun _ : ℕ => false) rfl hneg
  exact ⟨hneg, hmain.1, hmain.2.1, (hmain.2.2.1 (fun k => rfl)).1⟩

end PlasmaRig
